import Mathlib

/-!
Verification of the IRIV-IOC Modbus IO-expander firmware glue
(`main.py`, `rs485_sensor.py`, `web_status.py`) against its
natural-language specification.

Shallow embedding conventions:
* Python monotonic times and float configuration values are modelled as
  exact rationals (`ℚ`); the comparisons the code performs (`>= 0.5`,
  `< _next_poll`) involve only dyadic constants, where binary64 floats
  are exact.
* IEEE-754 binary32 register payloads are decoded to an exact value of
  type `PFloat` (a rational for finite patterns, plus infinity/NaN
  markers); scaling multiplies exactly where Python rounds to binary64.
* Fallible Python expressions become `Option`-valued readings supplied
  by an environment; `try/except` blocks become the corresponding
  `match`/`if` on those options exactly where the source places them.
* The external collaborators (umodbus serial transport, HAL pins,
  Wiznet ethernet object, CPU sensors) are oracles: each call site gets
  the outcome (success value or failure) as an explicit argument.
-/

namespace RS485

/-- Value of a Python float as produced by `struct.unpack('!f', ...)`:
an exact rational for finite patterns, or an infinity/NaN marker. -/
inductive PFloat where
  | fin (q : ℚ)
  | posInf
  | negInf
  | nan
deriving DecidableEq, Repr

/-- Multiplication of a decoded float by the (finite) configured scale,
following IEEE-754 semantics for the non-finite cases
(`inf * 0 = nan`, sign handling for infinities). For finite values the
product is taken exactly in `ℚ`. -/
def pfMul (x : PFloat) (s : ℚ) : PFloat :=
  match x with
  | .fin q => .fin (q * s)
  | .posInf => if s = 0 then .nan else if 0 < s then .posInf else .negInf
  | .negInf => if s = 0 then .nan else if 0 < s then .negInf else .posInf
  | .nan => .nan

/-- Python's `x & 0xFFFF` on an arbitrary (possibly negative) int:
two's-complement bitwise AND with `0xFFFF` equals reduction mod 2^16,
and Python's `%` on a positive modulus returns the value in
`[0, 65536)`, exactly as Lean's `Int.emod`. -/
def mask16 (z : ℤ) : ℤ := z % 65536

/-- Sign extension of a 16-bit word to a signed integer. This is how
the external umodbus transport presents each register when the read
call is made with `signed=True` (call sites rs485_sensor.py:182-184). -/
def sgnExt16 (w : ℕ) : ℤ :=
  if w < 32768 then (w : ℤ) else (w : ℤ) - 65536

/-- Register values as returned by the external umodbus transport for
one read call (rs485_sensor.py:182-184): with `signed=True` each 16-bit
register arrives sign-extended, otherwise zero-extended. -/
def regsToVals (signed : Bool) (words : List ℕ) : List ℤ :=
  words.map (fun w => if signed then sgnExt16 (w % 65536) else ((w % 65536 : ℕ) : ℤ))

/-- Exact value of an IEEE-754 binary32 bit pattern, as produced by
`struct.unpack('!f', struct.pack('!I', b))` (rs485_sensor.py:152-154):
sign bit 31, biased exponent bits 30-23, mantissa bits 22-0; exponent
255 encodes infinities/NaN, exponent 0 the subnormals. -/
def f32val (b : ℕ) : PFloat :=
  let sign : ℕ := b / 2 ^ 31 % 2
  let e : ℕ := b / 2 ^ 23 % 2 ^ 8
  let m : ℕ := b % 2 ^ 23
  if e = 255 then
    if m = 0 then (if sign = 1 then .negInf else .posInf) else .nan
  else
    let mag : ℚ :=
      if e = 0 then (m : ℚ) * (2 : ℚ) ^ (-149 : ℤ)
      else ((2 ^ 23 + m : ℕ) : ℚ) * (2 : ℚ) ^ ((e : ℤ) - 150)
    .fin (if sign = 1 then -mag else mag)

/-- Embedding of `_decode_vals(vals, fmt, signed, scale)`
(rs485_sensor.py:139-166). `vals` is the list returned by the
transport; indexing `vals[i]` past the end raises `IndexError` in
Python, modelled by `none` (the caller's `except` then catches it).
The `signed` parameter is accepted but — exactly as in the source —
never consulted: sign handling happens in the transport layer.
Raw values for the float formats are the 32-bit integer pattern. -/
def decode_vals (vals : List ℤ) (fmt : String) (signed : Bool) (scale : ℚ) :
    Option (ℤ × PFloat) :=
  if fmt = "int16" then
    match vals with
    | v :: _ => some (v, .fin ((v : ℚ) * scale))
    | [] => none
  else if fmt = "uint16" then
    match vals with
    | v :: _ => some (mask16 v, .fin ((mask16 v : ℚ) * scale))
    | [] => none
  else if fmt = "float32" then
    match vals with
    | v0 :: v1 :: _ =>
      let msw := mask16 v0
      let lsw := mask16 v1
      let bin32 := msw * 65536 + lsw
      some (bin32, pfMul (f32val bin32.toNat) scale)
    | _ => none
  else if fmt = "float32_swapped" then
    match vals with
    | v0 :: v1 :: _ =>
      let lsw := mask16 v0
      let msw := mask16 v1
      let bin32 := msw * 65536 + lsw
      some (bin32, pfMul (f32val bin32.toNat) scale)
    | _ => none
  else
    match vals with
    | v :: _ => some (v, .fin ((v : ℚ) * scale))
    | [] => none

/-- Number of register words a format consumes: 2 for the 32-bit float
formats, 1 for the 16-bit formats and for the fallback branch. -/
def requiredWords (fmt : String) : ℕ :=
  if fmt = "float32" ∨ fmt = "float32_swapped" then 2 else 1

/-- Decoding one wire word through the full pipeline the poller uses:
the transport's signed/unsigned register presentation (`regsToVals`)
followed by `decode_vals`, as at rs485_sensor.py:182-185. -/
def decodeWord (w : ℕ) (fmt : String) (signed : Bool) (scale : ℚ) :
    Option (ℤ × PFloat) :=
  decode_vals (regsToVals signed [w]) fmt signed scale

/-- Module-level mutable state of `rs485_sensor.py` (the globals at
lines 15-43): feature flag, transport presence (`_serial is not None`),
the parsed channel configuration, the primary `SensorReading`
(`_last_raw/_last_value/_last_ok/_last_ts`), the schedule
(`_next_poll`), the error counter, and the humidity reading. -/
structure State where
  enabled : Bool
  serial : Bool
  slaveAddr : ℕ
  regAddr : ℕ
  useInputRegs : Bool
  signed : Bool
  scale : ℚ
  fmt : String
  qty : ℕ
  humEnable : Bool
  humReg : ℕ
  humSigned : Bool
  humScale : ℚ
  humFmt : String
  humQty : ℕ
  pollS : ℚ
  lastValue : Option PFloat
  lastRaw : Option ℤ
  lastOk : Bool
  lastTs : ℚ
  nextPoll : ℚ
  errCount : ℕ
  lastHum : Option PFloat
  lastHumRaw : Option ℤ
  lastHumOk : Bool
deriving DecidableEq, Repr

/-- Initial module state: the global initializers of
rs485_sensor.py:15-43. -/
def initialState : State :=
  { enabled := false, serial := false, slaveAddr := 1, regAddr := 0,
    useInputRegs := true, signed := false, scale := 1 / 10, fmt := "int16",
    qty := 1, humEnable := false, humReg := 1, humSigned := false,
    humScale := 1 / 10, humFmt := "int16", humQty := 1, pollS := 2,
    lastValue := none, lastRaw := none, lastOk := false, lastTs := 0,
    nextPoll := 0, errCount := 0, lastHum := none, lastHumRaw := none,
    lastHumOk := false }

/-- Parsed configuration values: the outcomes of the `os.getenv` parses
with profile defaults and fallbacks at rs485_sensor.py:70-129 (each
parse falls back to its documented default on failure, so parsing
itself cannot raise past line 129). -/
structure Config where
  slaveAddr : ℕ
  regAddr : ℕ
  useInputRegs : Bool
  signed : Bool
  fmt : String
  qty : ℕ
  scale : ℚ
  humEnable : Bool
  humReg : ℕ
  humSigned : Bool
  humFmt : String
  humQty : ℕ
  humScale : ℚ
  pollS : ℚ
deriving DecidableEq, Repr

/-- Environment of one `_init()` attempt: the mode/enable gates of
lines 62-67, the parsed configuration, and whether the
`Serial(tx_pin=..., rx_pin=..., baudrate=baud)` construction at
line 131 succeeds. -/
structure InitEnv where
  modeTcp : Bool
  sensorEnable : Bool
  cfg : Config
  serialOk : Bool
deriving DecidableEq, Repr

/-- Embedding of `_init()` (rs485_sensor.py:58-136). When the gates
fail the feature is disabled; otherwise `_enabled` is set True first,
the configuration globals are assigned (humidity fields only when the
humidity channel is enabled, lines 111-122; the poll interval is
floor-clamped to 0.2, lines 125-126), and then the serial transport is
constructed. A construction failure lands in the `except` at lines
133-136: every assignment made so far stands and only `_serial` is
left as `None`. -/
def init (env : InitEnv) (now : ℚ) (st : State) : State :=
  if ¬ env.modeTcp then { st with enabled := false }
  else if ¬ env.sensorEnable then { st with enabled := false }
  else
    let c := env.cfg
    let st1 : State :=
      { st with
        enabled := true, slaveAddr := c.slaveAddr, regAddr := c.regAddr,
        useInputRegs := c.useInputRegs, signed := c.signed, fmt := c.fmt,
        qty := c.qty, scale := c.scale, humEnable := c.humEnable,
        pollS := if c.pollS < 1 / 5 then 1 / 5 else c.pollS }
    let st2 : State :=
      if c.humEnable then
        { st1 with humReg := c.humReg, humSigned := c.humSigned,
                   humFmt := c.humFmt, humQty := c.humQty,
                   humScale := c.humScale }
      else st1
    if env.serialOk then { st2 with serial := true, nextPoll := now }
    else { st2 with serial := false }

/-- Outcome of one transport read call
(`read_input_registers`/`read_holding_registers`): the returned
register list, or a raised exception. -/
inductive ReadResult where
  | ok (vals : List ℤ)
  | err
deriving DecidableEq, Repr

/-- Serial read calls actually issued during one `process()` step. -/
inductive ReadEv where
  | primary
  | humidity
deriving DecidableEq, Repr

/-- Primary-channel section of `process()` (rs485_sensor.py:180-192):
one `try` block covering the read call and the decode. When `_serial`
is `None` the attribute access raises before any bus traffic; a read
failure or a decode `IndexError` is the same `except Exception` path:
increment `_err_count`, set `_last_ok = False`, touch nothing else. -/
def primaryStep (rp : ReadResult) (now : ℚ) (st : State) : State :=
  if ¬ st.serial then { st with errCount := st.errCount + 1, lastOk := false }
  else
    match rp with
    | .err => { st with errCount := st.errCount + 1, lastOk := false }
    | .ok vals =>
      match decode_vals vals st.fmt st.signed st.scale with
      | some (raw, v) =>
        { st with lastRaw := some raw, lastValue := some v,
                  lastOk := true, lastTs := now }
      | none => { st with errCount := st.errCount + 1, lastOk := false }

/-- Humidity section of `process()` (rs485_sensor.py:193-205): only
when the humidity channel is enabled; its own `try` block; any failure
(absent serial, read error, decode error) sets `_last_hum_ok = False`
and nothing else — in particular `_err_count` is not touched. -/
def humidityStep (rh : ReadResult) (st : State) : State :=
  if ¬ st.humEnable then st
  else if ¬ st.serial then { st with lastHumOk := false }
  else
    match rh with
    | .err => { st with lastHumOk := false }
    | .ok hvals =>
      match decode_vals hvals st.humFmt st.humSigned st.humScale with
      | some (hraw, hv) =>
        { st with lastHumRaw := some hraw, lastHum := some hv,
                  lastHumOk := true }
      | none => { st with lastHumOk := false }

/-- Embedding of `process()` (rs485_sensor.py:169-205). Disabled with
no transport: lazily retry `_init()` (line 172-175). Enabled: return
untouched when the poll is not yet due (177-178), otherwise advance
`_next_poll` by the interval first (179) and run the primary and
humidity sections. The returned list records which serial read calls
were actually issued. -/
def process (env : InitEnv) (now : ℚ) (rp rh : ReadResult) (st : State) :
    State × List ReadEv :=
  if ¬ st.enabled then
    (if ¬ st.serial then init env now st else st, [])
  else if now < st.nextPoll then (st, [])
  else
    let st1 : State := { st with nextPoll := now + st.pollS }
    let st2 := primaryStep rp now st1
    let st3 := humidityStep rh st2
    (st3, (if st1.serial then [ReadEv.primary] else []) ++
          (if st2.humEnable ∧ st2.serial then [ReadEv.humidity] else []))

/-- Shape of the nested humidity object of `get_status()`
(rs485_sensor.py:221-229). It has exactly these seven fields; there is
no error counter among them. -/
structure HumStatus where
  enabled : Bool
  ok : Bool
  value_pct : Option PFloat
  raw : Option ℤ
  reg_addr : ℕ
  scale : ℚ
  format : String
deriving DecidableEq, Repr

/-- Shape of the dict returned by `get_status()`
(rs485_sensor.py:208-230). -/
structure Status where
  enabled : Bool
  ok : Bool
  value_c : Option PFloat
  raw : Option ℤ
  last_update_s : Option ℤ
  errors : ℕ
  slave_addr : ℕ
  reg_addr : ℕ
  func : String
  scale : ℚ
  format : String
  humidity : HumStatus
deriving DecidableEq, Repr

/-- Embedding of `get_status()` (rs485_sensor.py:208-230).
`int(_last_ts) if _last_ts else None`: a zero timestamp is falsy and
yields `None`; otherwise `int()` truncates, which for the nonnegative
monotonic clock is the floor. -/
def get_status (st : State) : Status :=
  { enabled := st.enabled, ok := st.lastOk, value_c := st.lastValue,
    raw := st.lastRaw,
    last_update_s := if st.lastTs = 0 then none else some st.lastTs.floor,
    errors := st.errCount, slave_addr := st.slaveAddr,
    reg_addr := st.regAddr,
    func := if st.useInputRegs then "IREG" else "HREG",
    scale := st.scale, format := st.fmt,
    humidity :=
      { enabled := st.humEnable, ok := st.lastHumOk,
        value_pct := st.lastHum, raw := st.lastHumRaw,
        reg_addr := st.humReg, scale := st.humScale,
        format := st.humFmt } }

end RS485

namespace Web

/-- Which of the collaborator calls inside one toggle handler fails
(web_status.py:85-127): reading the current HAL output value, writing
the flipped value back, mirroring into the Modbus coil — or none of
them. The single `try/except: pass` around the body means a failure
simply stops the remaining effects. -/
inductive ToggleOutcome where
  | full
  | failRead
  | failWrite
  | failCoil
deriving DecidableEq, Repr

/-- The HAL digital-output values and their Modbus coil mirrors for
DO0..DO3 (`Hal.doutN.value` and the coils at `Modbus.DON_ADD`). -/
structure IOState where
  dout : Fin 4 → Bool
  coil : Fin 4 → Bool

/-- Embedding of one toggle handler `doN_toggle`
(web_status.py:85-127): `newv = 0 if Hal.doutN.value else 1` (the
negation of the current value), write `newv` to the HAL output, then
`Modbus.client.set_coil(Modbus.DON_ADD, newv)`. A failed read or write
leaves everything unchanged; a failed coil mirror leaves the HAL write
standing. The handler always responds with the redirect page. -/
def toggle_do (i : Fin 4) (o : ToggleOutcome) (st : IOState) : IOState :=
  match o with
  | .failRead => st
  | .failWrite => st
  | .failCoil => { st with dout := Function.update st.dout i (!st.dout i) }
  | .full =>
    { st with dout := Function.update st.dout i (!st.dout i),
              coil := Function.update st.coil i (!st.dout i) }

/-- Environment of one `_read_status()` call (web_status.py:165-261):
the outcome of every collaborator read it performs. `none` means that
read raises. `ethPresent`/`hostname` come from `getattr` with a
default and cannot raise. Each digital-input dict entry (lines
199-211) is one fallible HAL read expression — for the odd channels
the expression itself selects counter-count versus pin value via
`getattr` defaults, so it is a single read whose outcome the
environment supplies. The counter entries (lines 213-219) are built
entirely from `getattr` calls with defaults and cannot raise; their
resulting values (`none` where the counter HAL is absent) are supplied
directly. -/
structure StatusEnv where
  ethPresent : Bool
  hostname : Option String
  mac : Option String
  ip : Option String
  link : Option Bool
  now : ℚ
  cpuTemp : Option ℚ
  supply : Option ℤ
  din : List (Option ℤ)
  counters : List (Option ℕ)
  dout : List (Option ℤ)
  anv0 : Option ℤ
  anv1 : Option ℤ
  ana0 : Option ℤ
  ana1 : Option ℤ
deriving DecidableEq, Repr

/-- Two-digit zero padding, Python's `{:02d}` for values below 100. -/
def pad2 (n : ℕ) : String :=
  if n < 10 then "0" ++ toString n else toString n

/-- Embedding of `_fmt_uptime(seconds)` (web_status.py:155-162). -/
def fmt_uptime (seconds : ℕ) : String :=
  let days := seconds / 86400
  let hours := seconds % 86400 / 3600
  let minutes := seconds % 3600 / 60
  let secs := seconds % 60
  if days ≠ 0 then
    toString days ++ "d " ++ pad2 hours ++ ":" ++ pad2 minutes ++ ":" ++ pad2 secs
  else
    pad2 hours ++ ":" ++ pad2 minutes ++ ":" ++ pad2 secs

/-- The document `_read_status()` returns (web_status.py:239-261). -/
structure DeviceSnapshot where
  model : String
  hostname : Option String
  mac : Option String
  ip : Option String
  linkUp : Option Bool
  uptimeSeconds : ℕ
  uptimeHms : String
  cpuTempC : Option ℚ
  supplyMv : Option ℤ
  din : List ℤ
  dout : List ℤ
  counters : List (Option ℕ)
  anVoltage : Option ℤ × Option ℤ
  anCurrent : Option ℤ × Option ℤ
  rs485 : RS485.Status
deriving DecidableEq, Repr

/-- Embedding of `_read_status()` (web_status.py:165-261). The
network fields, CPU temperature and supply voltage are each wrapped in
their own `try/except` and degrade to `None` individually. The two
analog voltage reads share one `try` block (lines 227-232), so a
failure of either nulls both; likewise the two current reads (lines
233-238). The digital-input and digital-output reads (lines 199-225)
are NOT wrapped: a failure there propagates out of `_read_status()`,
modelled as `none` for the whole call. -/
def read_status (env : StatusEnv) (sst : RS485.State) :
    Option DeviceSnapshot :=
  let mac := if env.ethPresent then env.mac else none
  let ip := if env.ethPresent then env.ip else none
  let link := if env.ethPresent then env.link else none
  let uptime : ℕ := env.now.floor.toNat
  match env.din.mapM id, env.dout.mapM id with
  | some dins, some douts =>
    let anv : Option ℤ × Option ℤ :=
      match env.anv0, env.anv1 with
      | some a, some b => (some a, some b)
      | _, _ => (none, none)
    let ana : Option ℤ × Option ℤ :=
      match env.ana0, env.ana1 with
      | some a, some b => (some a, some b)
      | _, _ => (none, none)
    some
      { model := "IRIV-IOC", hostname := env.hostname, mac := mac,
        ip := ip, linkUp := link, uptimeSeconds := uptime,
        uptimeHms := fmt_uptime uptime, cpuTempC := env.cpuTemp,
        supplyMv := env.supply, din := dins, dout := douts,
        counters := env.counters, anVoltage := anv, anCurrent := ana,
        rs485 := RS485.get_status sst }
  | _, _ => none

end Web

namespace Sched

/-- Observable actions of one iteration of the main loop
(main.py:39-69): watchdog feeds, the three subsystem step calls, and
the heartbeat-indicator toggle. -/
inductive Ev where
  | feed
  | modbus
  | web
  | sensor
  | heartbeat
deriving DecidableEq, Repr

/-- Outcome of `iriv_ioc_modbus.client.process()` on one tick: normal
return, a raised `Exception` (caught at main.py:47-48), or a raised
`KeyboardInterrupt` — the operator interrupt, which in Python is not
an `Exception` subclass and is handled by its own clause that breaks
the loop (main.py:44-46). -/
inductive MOut where
  | ok
  | exn
  | kbd
deriving DecidableEq, Repr

/-- Outcome of a `web_status.process()` / `rs485_sensor.process()`
step call: normal return or a raised `Exception`, caught by the
step's own `except` (main.py:51-61). -/
inductive SOut where
  | ok
  | exn
deriving DecidableEq, Repr

/-- The loop's own mutable state: the heartbeat timestamp and the LED
(`timestamp` at main.py:37, `Hal.led.value`). -/
structure MainState where
  timestamp : ℚ
  led : Bool
deriving DecidableEq, Repr

/-- Inputs of one tick: the three subsystem outcomes and the value of
the monotonic clock during the tick. -/
structure TickIn where
  m : MOut
  w : SOut
  s : SOut
  now : ℚ
deriving DecidableEq, Repr

/-- The event trace of one completed tick: feed, Modbus step, web
step, sensor step, heartbeat toggle when the half-second interval has
elapsed, second feed. -/
def tickEvents (hb : Bool) : List Ev :=
  [Ev.feed, Ev.modbus, Ev.web, Ev.sensor] ++
    (if hb then [Ev.heartbeat] else []) ++ [Ev.feed]

/-- Embedding of one iteration of the main loop (main.py:39-69):
feed the watchdog, drive the Modbus engine (its `Exception`s caught at
the step boundary, `KeyboardInterrupt` breaking the loop), drive the
web server step and the sensor step (each with its own catch-all),
toggle the LED and reset `timestamp` when at least 0.5 s elapsed, feed
the watchdog again. Returns the new state, the event trace, and
whether the loop continues. -/
def tick (m : MOut) (w s : SOut) (now : ℚ) (st : MainState) :
    MainState × List Ev × Bool :=
  match m with
  | .kbd => (st, [Ev.feed, Ev.modbus], false)
  | _ =>
    let (st1, hb) :=
      if 1 / 2 ≤ now - st.timestamp then
        (({ timestamp := now, led := !st.led } : MainState), [Ev.heartbeat])
      else (st, ([] : List Ev))
    (st1, [Ev.feed, Ev.modbus, Ev.web, Ev.sensor] ++ hb ++ [Ev.feed], true)

/-- A run of the main loop over a list of tick inputs, collecting the
per-tick event traces; a tick that breaks the loop (operator
interrupt) ends the run. -/
def run (st : MainState) : List TickIn → MainState × List (List Ev)
  | [] => (st, [])
  | i :: rest =>
    let (st1, evs, cont) := tick i.m i.w i.s i.now st
    if cont then
      let (st2, trs) := run st1 rest
      (st2, evs :: trs)
    else (st1, [evs])

end Sched

namespace RS485

/-- Frame of the primary-channel section: it never touches the
configuration, the schedule, or the humidity reading. -/
theorem primaryStep_frame (rp : ReadResult) (now : ℚ) (st : State) :
    (primaryStep rp now st).nextPoll = st.nextPoll ∧
    (primaryStep rp now st).enabled = st.enabled ∧
    (primaryStep rp now st).serial = st.serial ∧
    (primaryStep rp now st).humEnable = st.humEnable ∧
    (primaryStep rp now st).pollS = st.pollS ∧
    (primaryStep rp now st).lastHum = st.lastHum ∧
    (primaryStep rp now st).lastHumRaw = st.lastHumRaw ∧
    (primaryStep rp now st).lastHumOk = st.lastHumOk := by
  unfold primaryStep
  rcases rp with vals | _
  · split
    · simp
    · rcases h : decode_vals vals st.fmt st.signed st.scale with _ | ⟨raw, v⟩ <;> simp [h]
  · split <;> simp

/-- Frame of the humidity section: it never touches the primary
reading, the error counter, the schedule or the configuration. -/
theorem humidityStep_frame (rh : ReadResult) (st : State) :
    (humidityStep rh st).errCount = st.errCount ∧
    (humidityStep rh st).lastOk = st.lastOk ∧
    (humidityStep rh st).lastRaw = st.lastRaw ∧
    (humidityStep rh st).lastValue = st.lastValue ∧
    (humidityStep rh st).lastTs = st.lastTs ∧
    (humidityStep rh st).nextPoll = st.nextPoll ∧
    (humidityStep rh st).enabled = st.enabled ∧
    (humidityStep rh st).serial = st.serial ∧
    (humidityStep rh st).humEnable = st.humEnable ∧
    (humidityStep rh st).pollS = st.pollS := by
  unfold humidityStep
  rcases rh with hvals | _
  · split
    · simp
    · split
      · simp
      · rcases h : decode_vals hvals st.humFmt st.humSigned st.humScale with _ | ⟨hraw, hv⟩ <;>
          simp [h]
  · split
    · simp
    · split <;> simp

end RS485

/-- C3: decoding the wire word 0xFFFF through the poller's read
pipeline with format `int16` and `signed=true` yields raw `-1`
(sign-extended), with `uint16` raw `65535`; in general `int16` with
`signed=true` sign-extends the word and `uint16` masks it to 16 bits
(for either value of the signed flag). -/
theorem c3_int16_uint16_signedness (w : ℕ) (s : ℚ) (sg : Bool) (hw : w < 65536) :
    RS485.decodeWord w "int16" true s =
      some (RS485.sgnExt16 w, .fin ((RS485.sgnExt16 w : ℚ) * s)) ∧
    RS485.decodeWord w "uint16" sg s =
      some ((w : ℤ), .fin ((w : ℚ) * s)) := by
  have hmod : w % 65536 = w := Nat.mod_eq_of_lt hw
  have hm1 : RS485.mask16 (RS485.sgnExt16 w) = (w : ℤ) := by
    unfold RS485.mask16 RS485.sgnExt16
    split <;> omega
  have hm2 : RS485.mask16 ((w : ℕ) : ℤ) = (w : ℤ) := by
    unfold RS485.mask16
    omega
  have hm3 : RS485.mask16 ((w : ℤ) % 65536) = (w : ℤ) := by
    unfold RS485.mask16
    omega
  refine ⟨?_, ?_⟩
  · simp [RS485.decodeWord, RS485.regsToVals, RS485.decode_vals, hmod]
  · rcases sg with _ | _
    · simp [RS485.decodeWord, RS485.regsToVals, RS485.decode_vals, hmod, hm2, hm3]
    · simp [RS485.decodeWord, RS485.regsToVals, RS485.decode_vals, hmod, hm1]

/-- Witness for C3 at the concrete word 0xFFFF with scale 0.1. -/
theorem c3_witness :
    RS485.decodeWord 65535 "int16" true (1 / 10) =
        some (-1, RS485.PFloat.fin (-(1 / 10))) ∧
    RS485.decodeWord 65535 "uint16" false (1 / 10) =
        some (65535, RS485.PFloat.fin (13107 / 2)) := by
  have h := c3_int16_uint16_signedness 65535 (1 / 10) false (by norm_num)
  refine ⟨h.1.trans ?_, h.2.trans ?_⟩
  · norm_num [RS485.sgnExt16]
  · norm_num

/-- C9: for every word list at least as long as the quantity the
format consumes (2 for the 32-bit float formats, 1 for the 16-bit
formats) the decoder returns a (raw, scaled) pair — it is a pure total
function, never raising — and any unrecognized format string falls
back to decoding the first word int16-style. -/
theorem c9_decoder_total (fmt : String) (sg : Bool) (s : ℚ) :
    (∀ vals : List ℤ, RS485.requiredWords fmt ≤ vals.length →
      (RS485.decode_vals vals fmt sg s).isSome = true) ∧
    (fmt ≠ "int16" → fmt ≠ "uint16" → fmt ≠ "float32" →
      fmt ≠ "float32_swapped" → ∀ (v : ℤ) (rest : List ℤ),
        RS485.decode_vals (v :: rest) fmt sg s =
          some (v, .fin ((v : ℚ) * s))) := by
  constructor
  · intro vals hlen
    unfold RS485.requiredWords at hlen
    unfold RS485.decode_vals
    by_cases h3 : fmt = "float32"
    · simp only [h3, true_or, if_true] at hlen
      rcases vals with _ | ⟨v0, _ | ⟨v1, rest⟩⟩ <;> simp_all
    · by_cases h4 : fmt = "float32_swapped"
      · simp only [h4, or_true, if_true] at hlen
        rcases vals with _ | ⟨v0, _ | ⟨v1, rest⟩⟩ <;> simp_all
      · simp only [h3, h4, or_self, if_false] at hlen
        rcases vals with _ | ⟨v, rest⟩
        · simp at hlen
        · by_cases h1 : fmt = "int16"
          · simp_all
          · by_cases h2 : fmt = "uint16" <;> simp_all
  · intro h1 h2 h3 h4 v rest
    simp [RS485.decode_vals, h1, h2, h3, h4]

/-- Witness for C9: an unrecognized format with a one-word list. -/
theorem c9_witness :
    RS485.decode_vals [(7 : ℤ)] "bcd" false (1 / 10) =
      some (7, .fin ((7 : ℚ) * (1 / 10))) :=
  (c9_decoder_total "bcd" false (1 / 10)).2 (by decide) (by decide)
    (by decide) (by decide) 7 []

/-- C8: for every 32-bit pattern `b`, decoding its two big-endian
16-bit words with `float32` yields raw `b` and scaled value
`f32val b × s`; decoding the word-swapped pair with `float32_swapped`
yields exactly the same result; and whenever the pattern denotes a
finite binary32 value `q`, the scaled value is exactly `q × s`. -/
theorem c8_float32_roundtrip (b : ℕ) (sg : Bool) (s : ℚ)
    (hb : b < 4294967296) :
    RS485.decode_vals [((b / 65536 : ℕ) : ℤ), ((b % 65536 : ℕ) : ℤ)]
        "float32" sg s = some ((b : ℤ), RS485.pfMul (RS485.f32val b) s) ∧
    RS485.decode_vals [((b % 65536 : ℕ) : ℤ), ((b / 65536 : ℕ) : ℤ)]
        "float32_swapped" sg s =
      RS485.decode_vals [((b / 65536 : ℕ) : ℤ), ((b % 65536 : ℕ) : ℤ)]
        "float32" sg s ∧
    (∀ q : ℚ, RS485.f32val b = .fin q →
      RS485.decode_vals [((b / 65536 : ℕ) : ℤ), ((b % 65536 : ℕ) : ℤ)]
          "float32" sg s = some ((b : ℤ), .fin (q * s))) := by
  have hd : RS485.mask16 ((b : ℤ) / 65536) = (b : ℤ) / 65536 := by
    unfold RS485.mask16
    omega
  have hm : RS485.mask16 ((b : ℤ) % 65536) = (b : ℤ) % 65536 := by
    unfold RS485.mask16
    omega
  have hrec : (b : ℤ) / 65536 * 65536 + (b : ℤ) % 65536 = (b : ℤ) := by
    omega
  have hnat : ((b : ℤ)).toNat = b := Int.toNat_natCast b
  have h1 : RS485.decode_vals [((b / 65536 : ℕ) : ℤ), ((b % 65536 : ℕ) : ℤ)]
      "float32" sg s = some ((b : ℤ), RS485.pfMul (RS485.f32val b) s) := by
    simp [RS485.decode_vals, hd, hm, hrec, hnat, Int.ofNat_ediv]
  have h2 : RS485.decode_vals [((b % 65536 : ℕ) : ℤ), ((b / 65536 : ℕ) : ℤ)]
      "float32_swapped" sg s = some ((b : ℤ), RS485.pfMul (RS485.f32val b) s) := by
    simp [RS485.decode_vals, hd, hm, hrec, hnat, Int.ofNat_ediv]
  refine ⟨h1, h2.trans h1.symm, ?_⟩
  intro q hq
  rw [h1, hq]
  rfl

/-- Witness for C8 at the pattern 0x3F800000 (the binary32 value 1.0)
with scale 0.5: raw is the pattern, scaled is exactly 0.5. -/
theorem c8_witness :
    RS485.decode_vals
        [((1065353216 / 65536 : ℕ) : ℤ), ((1065353216 % 65536 : ℕ) : ℤ)]
        "float32" false (1 / 2) =
      some ((1065353216 : ℤ), RS485.pfMul (RS485.f32val 1065353216) (1 / 2)) ∧
    RS485.pfMul (RS485.f32val 1065353216) (1 / 2) = RS485.PFloat.fin (1 / 2) := by
  refine ⟨(c8_float32_roundtrip 1065353216 false (1 / 2) (by norm_num)).1, ?_⟩
  norm_num [RS485.f32val, RS485.pfMul]

/-- C7: for every digital output and every starting HAL/coil state,
two failure-free invocations of that output's toggle handler return
the HAL output to its original state; after each invocation the
mirrored coil equals the HAL output state, each invocation having
read the current value, written its negation, and mirrored it. -/
theorem c7_toggle_twice (i : Fin 4) (st : Web.IOState) :
    (Web.toggle_do i .full st).dout i = !st.dout i ∧
    (Web.toggle_do i .full st).coil i = (Web.toggle_do i .full st).dout i ∧
    (Web.toggle_do i .full (Web.toggle_do i .full st)).dout i = st.dout i ∧
    (Web.toggle_do i .full (Web.toggle_do i .full st)).coil i =
      (Web.toggle_do i .full (Web.toggle_do i .full st)).dout i := by
  simp [Web.toggle_do]

namespace RS485

/-- In the enabled-and-due case, `process` advances the schedule and
runs the primary and humidity sections in order. -/
theorem process_due (env : InitEnv) (now : ℚ) (rp rh : ReadResult)
    (st : State) (hen : st.enabled = true) (hdue : ¬ now < st.nextPoll) :
    (process env now rp rh st).1 =
      humidityStep rh (primaryStep rp now { st with nextPoll := now + st.pollS }) := by
  unfold process
  simp [hen, hdue]

/-- A failed primary read with the transport present: count the error,
drop the ok flag, touch nothing else. -/
theorem primaryStep_err (now : ℚ) (st : State) (hser : st.serial = true) :
    primaryStep .err now st =
      { st with errCount := st.errCount + 1, lastOk := false } := by
  unfold primaryStep
  simp [hser]

/-- A successful, decodable primary read overwrites the reading. -/
theorem primaryStep_ok (vals : List ℤ) (raw : ℤ) (v : PFloat) (now : ℚ)
    (st : State) (hser : st.serial = true)
    (hdec : decode_vals vals st.fmt st.signed st.scale = some (raw, v)) :
    primaryStep (.ok vals) now st =
      { st with lastRaw := some raw, lastValue := some v,
                lastOk := true, lastTs := now } := by
  unfold primaryStep
  simp [hser, hdec]

/-- A failed humidity read never touches the stored humidity values. -/
theorem humidityStep_err_frame (st : State) :
    (humidityStep .err st).lastHum = st.lastHum ∧
    (humidityStep .err st).lastHumRaw = st.lastHumRaw := by
  unfold humidityStep
  split_ifs <;> simp

/-- A failed humidity read with the channel enabled only drops the
humidity ok flag. -/
theorem humidityStep_err_eq (st : State) (hhe : st.humEnable = true) :
    humidityStep .err st = { st with lastHumOk := false } := by
  unfold humidityStep
  by_cases h : st.serial <;> simp [hhe, h]

end RS485

/-- C5: for every enabled poller state, a step before the due time is
a complete no-op (no read issued, state untouched), and a step at or
after the due time sets the next due time to `now + intervalSeconds`
whatever the outcome of the read. -/
theorem c5_poll_schedule (env : RS485.InitEnv) (st : RS485.State) (now : ℚ)
    (rp rh : RS485.ReadResult) (hen : st.enabled = true) :
    (now < st.nextPoll → RS485.process env now rp rh st = (st, [])) ∧
    (¬ now < st.nextPoll →
      (RS485.process env now rp rh st).1.nextPoll = now + st.pollS) := by
  constructor
  · intro h
    unfold RS485.process
    simp [hen, h]
  · intro h
    rw [RS485.process_due env now rp rh st hen h,
        (RS485.humidityStep_frame rh _).2.2.2.2.2.1,
        (RS485.primaryStep_frame rp now _).1]

/-- A state in the Active phase with both channels enabled, used to
instantiate the poll-step theorems on concrete inputs. -/
def RS485.activeState : RS485.State :=
  { RS485.initialState with enabled := true, serial := true, humEnable := true }

/-- A parsed configuration equal to the GENERIC profile defaults
(rs485_sensor.py:72-82 with no environment overrides). -/
def RS485.defaultCfg : RS485.Config :=
  { slaveAddr := 1, regAddr := 0, useInputRegs := true, signed := false,
    fmt := "int16", qty := 1, scale := 1 / 10, humEnable := false,
    humReg := 1, humSigned := false, humFmt := "int16", humQty := 1,
    humScale := 1 / 10, pollS := 2 }

/-- An enabled TCP-mode environment whose serial construction succeeds. -/
def RS485.constructionOkEnv : RS485.InitEnv :=
  { modeTcp := true, sensorEnable := true, cfg := RS485.defaultCfg,
    serialOk := true }

/-- An enabled TCP-mode environment whose serial construction raises. -/
def RS485.constructionFailEnv : RS485.InitEnv :=
  { modeTcp := true, sensorEnable := true, cfg := RS485.defaultCfg,
    serialOk := false }

/-- Witness for C5: interval 2.0, poll attempted at t = 0 → next due
t = 2 whether the read failed or succeeded; a step at t = 1 against a
schedule due at t = 2 performs no read and changes nothing. -/
theorem c5_witness :
    (RS485.process RS485.constructionOkEnv 0 .err .err RS485.activeState).1.nextPoll = 0 + 2 ∧
    (RS485.process RS485.constructionOkEnv 0 (.ok [235]) .err RS485.activeState).1.nextPoll = 0 + 2 ∧
    RS485.process RS485.constructionOkEnv 1 .err .err
        { RS485.activeState with nextPoll := 2 } =
      ({ RS485.activeState with nextPoll := 2 }, []) := by
  refine ⟨?_, ?_, ?_⟩
  · have h := (c5_poll_schedule RS485.constructionOkEnv RS485.activeState 0 .err .err rfl).2
      (by norm_num [RS485.activeState, RS485.initialState])
    simpa [RS485.activeState, RS485.initialState] using h
  · have h := (c5_poll_schedule RS485.constructionOkEnv RS485.activeState 0 (.ok [235]) .err rfl).2
      (by norm_num [RS485.activeState, RS485.initialState])
    simpa [RS485.activeState, RS485.initialState] using h
  · exact (c5_poll_schedule RS485.constructionOkEnv _ 1 .err .err rfl).1 (by norm_num)

/-- C4: in every due poll step whose primary read fails, the error
count is incremented by exactly one, the ok flag drops, and the stored
primary raw/scaled/timestamp are untouched; with the whole transport
failing, the stored humidity reading is also untouched; and the
primary ok flag never depends on the humidity read's outcome. -/
theorem c4_primary_failure_frame (env : RS485.InitEnv) (st : RS485.State)
    (now : ℚ) (hen : st.enabled = true) (hser : st.serial = true)
    (hdue : ¬ now < st.nextPoll) :
    (∀ rh, (RS485.process env now .err rh st).1.errCount = st.errCount + 1 ∧
           (RS485.process env now .err rh st).1.lastOk = false ∧
           (RS485.process env now .err rh st).1.lastRaw = st.lastRaw ∧
           (RS485.process env now .err rh st).1.lastValue = st.lastValue ∧
           (RS485.process env now .err rh st).1.lastTs = st.lastTs) ∧
    ((RS485.process env now .err .err st).1.lastHum = st.lastHum ∧
     (RS485.process env now .err .err st).1.lastHumRaw = st.lastHumRaw) ∧
    (∀ rp rh1 rh2, (RS485.process env now rp rh1 st).1.lastOk =
                   (RS485.process env now rp rh2 st).1.lastOk) := by
  have hser1 : ({ st with nextPoll := now + st.pollS } : RS485.State).serial = true := hser
  have herr := RS485.primaryStep_err now { st with nextPoll := now + st.pollS } hser1
  refine ⟨fun rh => ?_, ?_, fun rp rh1 rh2 => ?_⟩
  · rw [RS485.process_due env now .err rh st hen hdue, herr]
    have hf := RS485.humidityStep_frame rh
      { { st with nextPoll := now + st.pollS } with
        errCount := ({ st with nextPoll := now + st.pollS } : RS485.State).errCount + 1,
        lastOk := false }
    exact ⟨hf.1.trans rfl, hf.2.1.trans rfl, hf.2.2.1.trans rfl,
           hf.2.2.2.1.trans rfl, hf.2.2.2.2.1.trans rfl⟩
  · rw [RS485.process_due env now .err .err st hen hdue, herr]
    have hf := RS485.humidityStep_err_frame
      { { st with nextPoll := now + st.pollS } with
        errCount := ({ st with nextPoll := now + st.pollS } : RS485.State).errCount + 1,
        lastOk := false }
    exact ⟨hf.1.trans rfl, hf.2.trans rfl⟩
  · rw [RS485.process_due env now rp rh1 st hen hdue,
        RS485.process_due env now rp rh2 st hen hdue,
        (RS485.humidityStep_frame rh1 _).2.1,
        (RS485.humidityStep_frame rh2 _).2.1]

/-- Witness for C4: a failing primary read at t = 0 against the fresh
Active state with a previously stored humidity value. -/
theorem c4_witness :
    (RS485.process RS485.constructionOkEnv 0 .err .err
        { RS485.activeState with lastHum := some (.fin 5), errCount := 3 }).1.errCount = 3 + 1 ∧
    (RS485.process RS485.constructionOkEnv 0 .err .err
        { RS485.activeState with lastHum := some (.fin 5), errCount := 3 }).1.lastHum =
      some (RS485.PFloat.fin 5) := by
  have h := c4_primary_failure_frame RS485.constructionOkEnv
    { RS485.activeState with lastHum := some (.fin 5), errCount := 3 } 0 rfl rfl
    (by norm_num [RS485.activeState, RS485.initialState])
  exact ⟨(h.1 .err).1, h.2.1.1⟩

/-- C10: in every due poll step with a successful primary read and a
failing humidity read, the error counter is unchanged, the stored
humidity raw/scaled values are unchanged and only the humidity ok flag
drops; the error counter exposed by `get_status` equals the primary
error counter and never depends on the humidity read's outcome, and
the nested humidity status carries the stored values with `ok=false`. -/
theorem c10_secondary_failure_frame (env : RS485.InitEnv) (st : RS485.State)
    (now : ℚ) (vals : List ℤ) (raw : ℤ) (v : RS485.PFloat)
    (hen : st.enabled = true) (hser : st.serial = true)
    (hdue : ¬ now < st.nextPoll) (hhe : st.humEnable = true)
    (hdec : RS485.decode_vals vals st.fmt st.signed st.scale = some (raw, v)) :
    ((RS485.process env now (.ok vals) .err st).1.errCount = st.errCount ∧
     (RS485.process env now (.ok vals) .err st).1.lastHum = st.lastHum ∧
     (RS485.process env now (.ok vals) .err st).1.lastHumRaw = st.lastHumRaw ∧
     (RS485.process env now (.ok vals) .err st).1.lastHumOk = false) ∧
    ((RS485.get_status (RS485.process env now (.ok vals) .err st).1).errors = st.errCount ∧
     (RS485.get_status (RS485.process env now (.ok vals) .err st).1).humidity.ok = false ∧
     (RS485.get_status (RS485.process env now (.ok vals) .err st).1).humidity.value_pct = st.lastHum ∧
     (RS485.get_status (RS485.process env now (.ok vals) .err st).1).humidity.raw = st.lastHumRaw) ∧
    (∀ rp rh, (RS485.process env now rp rh st).1.errCount =
              (RS485.process env now rp .err st).1.errCount) := by
  have hser1 : ({ st with nextPoll := now + st.pollS } : RS485.State).serial = true := hser
  have hok := RS485.primaryStep_ok vals raw v now { st with nextPoll := now + st.pollS } hser1 hdec
  have hhe1 : (RS485.primaryStep (.ok vals) now { st with nextPoll := now + st.pollS }).humEnable = true := by
    rw [hok]
    exact hhe
  have hmain : (RS485.process env now (.ok vals) .err st).1 =
      { RS485.primaryStep (.ok vals) now { st with nextPoll := now + st.pollS } with
        lastHumOk := false } := by
    rw [RS485.process_due env now (.ok vals) .err st hen hdue,
        RS485.humidityStep_err_eq _ hhe1]
  refine ⟨?_, ?_, fun rp rh => ?_⟩
  · rw [hmain, hok]
    exact ⟨rfl, rfl, rfl, rfl⟩
  · rw [hmain, hok]
    exact ⟨rfl, rfl, rfl, rfl⟩
  · rw [RS485.process_due env now rp rh st hen hdue,
        RS485.process_due env now rp .err st hen hdue,
        (RS485.humidityStep_frame rh _).1,
        (RS485.humidityStep_frame .err _).1]

/-- Witness for C10: primary raw 235 decodes at scale 0.1, humidity
read fails; previously stored humidity value survives and the error
counter stays at 3. -/
theorem c10_witness :
    (RS485.process RS485.constructionOkEnv 0 (.ok [235]) .err
        { RS485.activeState with lastHum := some (.fin 5), errCount := 3 }).1.errCount = 3 ∧
    (RS485.process RS485.constructionOkEnv 0 (.ok [235]) .err
        { RS485.activeState with lastHum := some (.fin 5), errCount := 3 }).1.lastHum =
      some (RS485.PFloat.fin 5) ∧
    (RS485.process RS485.constructionOkEnv 0 (.ok [235]) .err
        { RS485.activeState with lastHum := some (.fin 5), errCount := 3 }).1.lastHumOk = false := by
  have h := c10_secondary_failure_frame RS485.constructionOkEnv
    { RS485.activeState with lastHum := some (.fin 5), errCount := 3 } 0 [235]
    235 (.fin (235 * (1 / 10))) rfl rfl
    (by norm_num [RS485.activeState, RS485.initialState]) rfl
    (by norm_num [RS485.decode_vals, RS485.activeState, RS485.initialState])
  exact ⟨h.1.1, h.1.2.1, h.1.2.2.2⟩

/-- C2 (code bug): with the sensor enabled in TCP mode and the serial
construction failing on the first `process()` call, the module ends up
`_enabled=True` with `_serial=None`; the second call — even in an
environment where construction would now succeed — does not retry
`_init()` (the retry branch requires `_enabled` false), goes straight
to the due poll, and the read on the absent transport increments
`_err_count`, leaving the transport permanently unconstructed. -/
theorem c2_construction_failure_not_retried :
    ((RS485.process RS485.constructionFailEnv 0 .err .err RS485.initialState).1.enabled = true ∧
     (RS485.process RS485.constructionFailEnv 0 .err .err RS485.initialState).1.serial = false ∧
     (RS485.process RS485.constructionFailEnv 0 .err .err RS485.initialState).1.errCount = 0 ∧
     (RS485.process RS485.constructionFailEnv 0 .err .err RS485.initialState).2 = []) ∧
    ((RS485.process RS485.constructionOkEnv 1 .err .err
        (RS485.process RS485.constructionFailEnv 0 .err .err RS485.initialState).1).1.serial = false ∧
     (RS485.process RS485.constructionOkEnv 1 .err .err
        (RS485.process RS485.constructionFailEnv 0 .err .err RS485.initialState).1).1.errCount = 1) := by
  norm_num [RS485.process, RS485.init, RS485.primaryStep, RS485.humidityStep,
            RS485.initialState, RS485.constructionFailEnv, RS485.constructionOkEnv,
            RS485.defaultCfg]

namespace Sched

/-- Shape of every tick not ended by the operator interrupt: the full
ordered event trace, heartbeat state update exactly when due, and the
loop continues — independently of the subsystem outcomes. -/
theorem tick_shape (m : MOut) (w s : SOut) (now : ℚ) (st : MainState)
    (hm : m ≠ MOut.kbd) :
    tick m w s now st =
      (if 1 / 2 ≤ now - st.timestamp then
        ({ timestamp := now, led := !st.led } : MainState) else st,
       tickEvents (decide (1 / 2 ≤ now - st.timestamp)), true) := by
  rcases m with _ | _ | _
  · unfold tick tickEvents
    split_ifs with h1 h2 <;> simp_all [one_div] <;> linarith
  · unfold tick tickEvents
    split_ifs with h1 h2 <;> simp_all [one_div] <;> linarith
  · exact absurd rfl hm

end Sched

/-- C1: every tick of the main loop not ended by the operator
interrupt performs, in order: watchdog feed, Modbus step, web step,
sensor step, heartbeat toggle (with timestamp reset) exactly when the
0.5 s interval has elapsed, and a second watchdog feed — whatever the
outcomes (normal or raised `Exception`) of the Modbus/web/sensor
steps, since each is caught at its own boundary; and over any input
sequence free of operator interrupts, every tick runs and produces a
trace of that exact shape. -/
theorem c1_scheduler_order (m : Sched.MOut) (w s : Sched.SOut) (now : ℚ)
    (st : Sched.MainState) (hm : m ≠ Sched.MOut.kbd)
    (ins : List Sched.TickIn) (hins : ∀ i ∈ ins, i.m ≠ Sched.MOut.kbd) :
    Sched.tick m w s now st =
      (if 1 / 2 ≤ now - st.timestamp then
        ({ timestamp := now, led := !st.led } : Sched.MainState) else st,
       Sched.tickEvents (decide (1 / 2 ≤ now - st.timestamp)), true) ∧
    (Sched.run st ins).2.length = ins.length ∧
    (∀ t ∈ (Sched.run st ins).2, ∃ hb, t = Sched.tickEvents hb) := by
  refine ⟨Sched.tick_shape m w s now st hm, ?_⟩
  clear hm
  revert hins
  induction ins generalizing st with
  | nil =>
    intro _
    simp [Sched.run]
  | cons i rest ih =>
    intro hins
    have hi : i.m ≠ Sched.MOut.kbd := hins i (List.mem_cons_self i rest)
    have hrest : ∀ j ∈ rest, j.m ≠ Sched.MOut.kbd :=
      fun j hj => hins j (List.mem_cons_of_mem i hj)
    have hr := fun st1 => ih st1 hrest
    unfold Sched.run
    rw [Sched.tick_shape i.m i.w i.s i.now st hi]
    dsimp only
    constructor
    · simpa using (hr (if 1 / 2 ≤ i.now - st.timestamp then
        ({ timestamp := i.now, led := !st.led } : Sched.MainState) else st)).1
    · intro t ht
      simp only [reduceIte, List.mem_cons] at ht
      rcases ht with h1 | h2
      · exact ⟨_, h1⟩
      · exact (hr _).2 t h2

/-- Witness for C1: a tick at t = 1 (heartbeat due) whose Modbus step
raises an `Exception`; and a two-tick run in which every subsystem
raises on the first tick. -/
theorem c1_witness :
    Sched.tick .exn .exn .ok 1 ⟨0, false⟩ =
      (⟨1, true⟩, Sched.tickEvents true, true) ∧
    (Sched.run ⟨0, false⟩
        [⟨.exn, .exn, .exn, 1⟩, ⟨.ok, .ok, .ok, 2⟩]).2.length = 2 := by
  have h := c1_scheduler_order .exn .exn .ok 1 ⟨0, false⟩ (by decide)
    [⟨.exn, .exn, .exn, 1⟩, ⟨.ok, .ok, .ok, 2⟩] (by decide)
  refine ⟨h.1.trans ?_, h.2.1.trans rfl⟩
  norm_num

/-- Environment in which every collaborator read succeeds except the
first digital-input read (`int(Hal.din0.value)` raising). -/
def Web.dinFailEnv : Web.StatusEnv :=
  { ethPresent := true, hostname := some "iriv", mac := some "00:08:DC:01:02:03",
    ip := some "192.168.0.50", link := some true, now := 7,
    cpuTemp := some 40, supply := some 24000,
    din := none :: List.replicate 10 (some 0),
    counters := List.replicate 5 none,
    dout := List.replicate 4 (some 0),
    anv0 := some 1, anv1 := some 2, ana0 := some 3, ana1 := some 4 }

/-- Environment in which every read succeeds except the MAC address. -/
def Web.macFailEnv : Web.StatusEnv :=
  { Web.dinFailEnv with mac := none, din := List.replicate 11 (some 0) }

/-- C6 counterexample: a failure of a single digital-input read — one
of the field reads the claim names — aborts `_read_status()` entirely
(the `dins` dict at web_status.py:199-211 is built outside any
`try/except`), instead of returning a document with only that field
degraded. -/
theorem c6_counterexample :
    Web.read_status Web.dinFailEnv RS485.initialState = none := rfl

/-- C6 (amended): when the unwrapped digital-input and digital-output
reads all succeed, the snapshot is produced and every individually
wrapped field equals the outcome of its own read alone — so a failure
of any one of MAC / IP / link / CPU temperature / supply voltage
degrades exactly that field to null with every other field populated;
the two analog voltage reads are wrapped as one pair (a failure of
either nulls both), and likewise the two current reads. -/
theorem c6_snapshot_degraded_fields (env : Web.StatusEnv)
    (sst : RS485.State)
    (hdin : (env.din.mapM id).isSome = true)
    (hdout : (env.dout.mapM id).isSome = true) :
    ∃ snap, Web.read_status env sst = some snap ∧
      snap.mac = (if env.ethPresent then env.mac else none) ∧
      snap.ip = (if env.ethPresent then env.ip else none) ∧
      snap.linkUp = (if env.ethPresent then env.link else none) ∧
      snap.cpuTempC = env.cpuTemp ∧
      snap.supplyMv = env.supply ∧
      snap.hostname = env.hostname ∧
      snap.counters = env.counters ∧
      snap.anVoltage = (match env.anv0, env.anv1 with
        | some a, some b => (some a, some b)
        | _, _ => (none, none)) ∧
      snap.anCurrent = (match env.ana0, env.ana1 with
        | some a, some b => (some a, some b)
        | _, _ => (none, none)) ∧
      snap.rs485 = RS485.get_status sst := by
  rcases hd1 : env.din.mapM id with _ | dins
  · rw [hd1] at hdin
    simp at hdin
  · rcases hd2 : env.dout.mapM id with _ | douts
    · rw [hd2] at hdout
      simp at hdout
    · simp only [Web.read_status, hd1, hd2]
      exact ⟨_, rfl, rfl, rfl, rfl, rfl, rfl, rfl, rfl, rfl, rfl, rfl⟩

/-- Witness for C6 (amended): with all digital reads succeeding and
only the MAC read failing, the snapshot is produced with `mac` null
and the network/CPU/supply fields populated. -/
theorem c6_witness :
    ∃ snap, Web.read_status Web.macFailEnv RS485.initialState = some snap ∧
      snap.mac = none ∧ snap.ip = some "192.168.0.50" ∧
      snap.linkUp = some true ∧ snap.cpuTempC = some 40 ∧
      snap.supplyMv = some 24000 := by
  obtain ⟨snap, h1, h2, h3, h4, h5, h6, h7⟩ :=
    c6_snapshot_degraded_fields Web.macFailEnv RS485.initialState
      (by decide) (by decide)
  refine ⟨snap, h1, ?_, ?_, ?_, ?_, ?_⟩
  · simpa [Web.macFailEnv, Web.dinFailEnv] using h2
  · simpa [Web.macFailEnv, Web.dinFailEnv] using h3
  · simpa [Web.macFailEnv, Web.dinFailEnv] using h4
  · simpa [Web.macFailEnv, Web.dinFailEnv] using h5
  · simpa [Web.macFailEnv, Web.dinFailEnv] using h6
